import Mathlib

/-!
Verification of the DCFlight debug-log removal tool
(`remove_debug_logs.py`).

The tool is a line-oriented filter.  We embed it shallowly:

* Each regular expression used by the tool is translated into an explicit
  character-level matcher over `List Char`.  The patterns involved use only
  the constructs `\s*`, `\s+`, literal text, `\(`, `[^)]*`, `\)` and `$`;
  because every starred class in them is disjoint from the character that
  follows it, the greedy, non-backtracking matchers below have exactly the
  semantics of Python's `re.match` on these patterns.  Python's `\s` is
  modelled by the six ASCII whitespace characters (space, tab, newline,
  carriage return, vertical tab, form feed); `$` (no MULTILINE) matches at
  the end of the string or just before a trailing newline, which after a
  maximal `\s*` is equivalent to "the rest of the line is whitespace only".
* The two scanning loops of `clean_dart_file` / `clean_swift_file` become
  the recursive functions `cleanDart` / `cleanSwift` on `List String`.
* The surrounding file I/O (read, conditional write, counters, try/except)
  is modelled with `Except` for the fallible read and a `Bool` for the
  success of the conditional write (`dartFileOp` / `swiftFileOp`).
* `find_files` is modelled over path segments (`Path.parts`).
-/

/-- Python `\s` restricted to ASCII: the whitespace characters matched by
`\s` on ordinary source text. -/
def wsChar (c : Char) : Bool :=
  c = ' ' || c = '\t' || c = '\n' || c = '\r' || c = '\x0b' || c = '\x0c'

/-- `\s*`: greedily drop leading whitespace. -/
def wsStar (cs : List Char) : List Char :=
  cs.dropWhile wsChar

/-- `\s+`: at least one whitespace character, then greedily drop the rest. -/
def wsPlus (cs : List Char) : Option (List Char) :=
  match cs with
  | [] => none
  | c :: rest => if wsChar c then some (wsStar rest) else none

/-- Match a literal character sequence at the head of the input, returning
the remainder. -/
def litM (lit : List Char) (cs : List Char) : Option (List Char) :=
  match lit, cs with
  | [], rest => some rest
  | _ :: _, [] => none
  | a :: ls, c :: rest => if c = a then litM ls rest else none

/-- `\s*$` at the current position: Python `$` (no MULTILINE) after a
maximal `\s*` succeeds exactly when only whitespace remains. -/
def lineEnd (cs : List Char) : Bool :=
  (wsStar cs).isEmpty

/-- `\s*\([^)]*\)`: optional whitespace, an opening parenthesis, a maximal
run of non-`)` characters, then the closing parenthesis. -/
def parenArgs (cs : List Char) : Option (List Char) :=
  match wsStar cs with
  | '(' :: rest =>
    match rest.dropWhile (fun c => c ≠ ')') with
    | ')' :: rest2 => some rest2
    | _ => none
  | _ => none

/-- `\s*NAME\s*\([^)]*\)`: a call-shaped fragment. -/
def callM (name : List Char) (cs : List Char) : Option (List Char) :=
  (litM name (wsStar cs)).bind parenArgs

/-- `\s*;\s*$`: the Dart statement tail. -/
def semiEnd (cs : List Char) : Bool :=
  match wsStar cs with
  | ';' :: rest => lineEnd rest
  | _ => false

/-- `if\s*\(\s*kDebugMode\s*\)` after leading whitespace. -/
def kDebugCond (cs : List Char) : Option (List Char) :=
  (litM "if".data (wsStar cs)).bind fun r =>
    match wsStar r with
    | '(' :: r2 =>
      (litM "kDebugMode".data (wsStar r2)).bind fun r3 =>
        match wsStar r3 with
        | ')' :: r4 => some r4
        | _ => none
    | _ => none

/-- Dart pattern `^\s*print\s*\([^)]*\)\s*;\s*$`. -/
def dartPrintPat (l : String) : Bool :=
  match callM "print".data l.data with
  | some rest => semiEnd rest
  | none => false

/-- Dart pattern `^\s*debugPrint\s*\([^)]*\)\s*;\s*$`. -/
def dartDebugPrintPat (l : String) : Bool :=
  match callM "debugPrint".data l.data with
  | some rest => semiEnd rest
  | none => false

/-- Dart pattern `^\s*developer\.log\s*\([^)]*\)\s*;\s*$`. -/
def dartDeveloperLogPat (l : String) : Bool :=
  match callM "developer.log".data l.data with
  | some rest => semiEnd rest
  | none => false

/-- Dart pattern
`^\s*if\s*\(\s*kDebugMode\s*\)\s*print\s*\([^)]*\)\s*;\s*$`. -/
def dartKDebugPrintPat (l : String) : Bool :=
  match (kDebugCond l.data).bind (callM "print".data) with
  | some rest => semiEnd rest
  | none => false

/-- A Dart line matches one of the four `dart_patterns` (the loop breaks at
the first match; the retained/removed outcome only depends on whether any
pattern matches). -/
def dartLineMatch (l : String) : Bool :=
  dartPrintPat l || dartDebugPrintPat l || dartDeveloperLogPat l ||
    dartKDebugPrintPat l

/-- The Dart block opener `^\s*if\s*\(\s*kDebugMode\s*\)\s*\{\s*$`. -/
def isDartBlockOpen (l : String) : Bool :=
  match kDebugCond l.data with
  | some r =>
    match wsStar r with
    | '{' :: r2 => lineEnd r2
    | _ => false
  | none => false

/-- Swift pattern `^\s*print\s*\([^)]*\)\s*$`. -/
def swiftPrintPat (l : String) : Bool :=
  match callM "print".data l.data with
  | some rest => lineEnd rest
  | none => false

/-- Swift pattern `^\s*NSLog\s*\([^)]*\)\s*$`. -/
def swiftNSLogPat (l : String) : Bool :=
  match callM "NSLog".data l.data with
  | some rest => lineEnd rest
  | none => false

/-- Swift pattern `^\s*os_log\s*\([^)]*\)\s*$`. -/
def swiftOsLogPat (l : String) : Bool :=
  match callM "os_log".data l.data with
  | some rest => lineEnd rest
  | none => false

/-- A Swift line matches one of the three `swift_patterns`. -/
def swiftLineMatch (l : String) : Bool :=
  swiftPrintPat l || swiftNSLogPat l || swiftOsLogPat l

/-- The Swift block opener `^\s*#if\s+DEBUG\s*$`. -/
def isSwiftBlockOpen (l : String) : Bool :=
  match litM "#if".data (wsStar l.data) with
  | some r =>
    match wsPlus r with
    | some r2 =>
      match litM "DEBUG".data r2 with
      | some r3 => lineEnd r3
      | none => false
    | none => false
  | none => false

/-- The Swift terminator `^\s*#endif\s*$`. -/
def isEndif (l : String) : Bool :=
  match litM "#endif".data (wsStar l.data) with
  | some r => lineEnd r
  | none => false

/-- `line.count(open brace) - line.count(close brace)`: the per-line update
of the Dart nesting counter. -/
def braceDelta (l : String) : Int :=
  (l.data.countP (fun c => c = '{') : Int) - (l.data.countP (fun c => c = '}') : Int)

/-- Number of opening braces on a line (used to say a line opens an inner
block). -/
def braceOpens (l : String) : Nat :=
  l.data.countP (fun c => c = '{')

/-- The inner Dart skip loop: while lines remain and the counter is
positive, add `braceDelta` of the current line and advance; return the
lines remaining when the loop exits. -/
def dropBlock (bc : Int) (ls : List String) : List String :=
  if bc ≤ 0 then ls
  else
    match ls with
    | [] => []
    | l :: rest => dropBlock (bc + braceDelta l) rest

/-- The inner Swift skip loop: discard lines up to and including the first
`#endif` line; if none exists, discard everything. -/
def dropToEndif : List String → List String
  | [] => []
  | l :: rest => if isEndif l then rest else dropToEndif rest

theorem dropBlock_length_le (bc : Int) (ls : List String) :
    (dropBlock bc ls).length ≤ ls.length := by
  induction ls generalizing bc with
  | nil => simp [dropBlock]
  | cons l rest ih =>
    unfold dropBlock
    by_cases h : bc ≤ 0
    · simp [h]
    · simp only [h, if_false]
      exact Nat.le_succ_of_le (ih (bc + braceDelta l))

theorem dropToEndif_length_le (ls : List String) :
    (dropToEndif ls).length ≤ ls.length := by
  induction ls with
  | nil => simp [dropToEndif]
  | cons l rest ih =>
    unfold dropToEndif
    by_cases h : isEndif l
    · simp [h]
    · simp only [h, if_false]
      exact Nat.le_succ_of_le ih

/-- The main scan loop of `clean_dart_file`: block test first, then the
per-line patterns; non-matching lines are retained in order. -/
def cleanDart (ls : List String) : List String :=
  match ls with
  | [] => []
  | l :: rest =>
    if isDartBlockOpen l then cleanDart (dropBlock 1 rest)
    else if dartLineMatch l then cleanDart rest
    else l :: cleanDart rest
termination_by ls.length
decreasing_by
  · exact Nat.lt_succ_of_le (dropBlock_length_le 1 rest)
  · exact Nat.lt_succ_self _
  · exact Nat.lt_succ_self _

/-- The main scan loop of `clean_swift_file`. -/
def cleanSwift (ls : List String) : List String :=
  match ls with
  | [] => []
  | l :: rest =>
    if isSwiftBlockOpen l then cleanSwift (dropToEndif rest)
    else if swiftLineMatch l then cleanSwift rest
    else l :: cleanSwift rest
termination_by ls.length
decreasing_by
  · exact Nat.lt_succ_of_le (dropToEndif_length_le rest)
  · exact Nat.lt_succ_self _
  · exact Nat.lt_succ_self _

/-- Structural restatement of the Dart scan loop as a one-integer state
machine (state `bc ≤ 0`: normal scanning; state `bc > 0`: inside a
`kDebugMode` block with nesting counter `bc`), used to evaluate
`cleanDart` on concrete inputs.  `cleanDartA_zero_eq` proves it equal to
`cleanDart`. -/
def cleanDartA (bc : Int) : List String → List String
  | [] => []
  | l :: rest =>
    if bc ≤ 0 then
      if isDartBlockOpen l then cleanDartA 1 rest
      else if dartLineMatch l then cleanDartA 0 rest
      else l :: cleanDartA 0 rest
    else cleanDartA (bc + braceDelta l) rest

/-- Structural restatement of the Swift scan loop as a two-state machine
(`inBlock` set between `#if DEBUG` and the next `#endif`). -/
def cleanSwiftA (inBlock : Bool) : List String → List String
  | [] => []
  | l :: rest =>
    if inBlock then
      if isEndif l then cleanSwiftA false rest else cleanSwiftA true rest
    else
      if isSwiftBlockOpen l then cleanSwiftA true rest
      else if swiftLineMatch l then cleanSwiftA false rest
      else l :: cleanSwiftA false rest

theorem cleanDartA_cons (bc : Int) (l : String) (rest : List String) :
    cleanDartA bc (l :: rest) =
      if bc ≤ 0 then
        if isDartBlockOpen l then cleanDartA 1 rest
        else if dartLineMatch l then cleanDartA 0 rest
        else l :: cleanDartA 0 rest
      else cleanDartA (bc + braceDelta l) rest := rfl

theorem cleanSwiftA_cons (b : Bool) (l : String) (rest : List String) :
    cleanSwiftA b (l :: rest) =
      if b then
        if isEndif l then cleanSwiftA false rest else cleanSwiftA true rest
      else
        if isSwiftBlockOpen l then cleanSwiftA true rest
        else if swiftLineMatch l then cleanSwiftA false rest
        else l :: cleanSwiftA false rest := rfl

theorem dropBlock_nil (bc : Int) : dropBlock bc [] = [] := by
  conv_lhs => rw [dropBlock.eq_def]
  simp

theorem dropBlock_cons_pos (bc : Int) (hbc : 0 < bc) (l : String)
    (rest : List String) :
    dropBlock bc (l :: rest) = dropBlock (bc + braceDelta l) rest := by
  conv_lhs => rw [dropBlock.eq_def]
  simp [Int.not_le.mpr hbc]

theorem dropBlock_nonpos (bc : Int) (hbc : bc ≤ 0) (ls : List String) :
    dropBlock bc ls = ls := by
  conv_lhs => rw [dropBlock.eq_def]
  simp [hbc]

theorem cleanDartA_skip (ls : List String) :
    ∀ bc : Int, 0 < bc → cleanDartA bc ls = cleanDartA 0 (dropBlock bc ls) := by
  induction ls with
  | nil =>
    intro bc hbc
    rw [dropBlock_nil]
    simp [cleanDartA]
  | cons l rest ih =>
    intro bc hbc
    rw [cleanDartA_cons, if_neg (Int.not_le.mpr hbc), dropBlock_cons_pos bc hbc]
    by_cases h : 0 < bc + braceDelta l
    · exact ih _ h
    · have h' : bc + braceDelta l ≤ 0 := Int.not_lt.mp h
      rw [dropBlock_nonpos _ h']
      cases rest with
      | nil => simp [cleanDartA]
      | cons a as => rw [cleanDartA_cons, cleanDartA_cons, if_pos h', if_pos (le_refl (0 : Int))]

theorem cleanSwiftA_skip (ls : List String) :
    cleanSwiftA true ls = cleanSwiftA false (dropToEndif ls) := by
  induction ls with
  | nil => simp [cleanSwiftA, dropToEndif]
  | cons l rest ih =>
    rw [cleanSwiftA_cons, if_pos rfl]
    by_cases h : isEndif l
    · simp [dropToEndif, h]
    · rw [if_neg (by simp [h]), dropToEndif, if_neg (by simp [h])]
      exact ih

theorem cleanDartA_zero_eq_aux (n : Nat) :
    ∀ ls : List String, ls.length ≤ n → cleanDartA 0 ls = cleanDart ls := by
  induction n with
  | zero =>
    intro ls h
    have : ls = [] := List.eq_nil_of_length_eq_zero (Nat.le_zero.mp h)
    subst this
    simp [cleanDartA, cleanDart]
  | succ n ih =>
    intro ls h
    cases ls with
    | nil => simp [cleanDartA, cleanDart]
    | cons l rest =>
      have hrest : rest.length ≤ n := Nat.lt_succ_iff.mp (Nat.lt_of_lt_of_le (Nat.lt_succ_self _) h)
      rw [cleanDart, cleanDartA_cons, if_pos (le_refl (0 : Int))]
      by_cases ho : isDartBlockOpen l
      · rw [if_pos ho, if_pos ho, cleanDartA_skip rest 1 Int.one_pos]
        exact ih _ (le_trans (dropBlock_length_le 1 rest) hrest)
      · have ho' : isDartBlockOpen l = false := by simpa using ho
        by_cases hm : dartLineMatch l
        · simp [ho', hm, ih rest hrest]
        · have hm' : dartLineMatch l = false := by simpa using hm
          simp [ho', hm', ih rest hrest]

/-- The state-machine evaluator agrees with the source-shaped Dart scan. -/
theorem cleanDart_eval (ls : List String) : cleanDart ls = cleanDartA 0 ls :=
  (cleanDartA_zero_eq_aux ls.length ls le_rfl).symm

theorem cleanSwiftA_false_eq_aux (n : Nat) :
    ∀ ls : List String, ls.length ≤ n → cleanSwiftA false ls = cleanSwift ls := by
  induction n with
  | zero =>
    intro ls h
    have : ls = [] := List.eq_nil_of_length_eq_zero (Nat.le_zero.mp h)
    subst this
    simp [cleanSwiftA, cleanSwift]
  | succ n ih =>
    intro ls h
    cases ls with
    | nil => simp [cleanSwiftA, cleanSwift]
    | cons l rest =>
      have hrest : rest.length ≤ n := Nat.lt_succ_iff.mp (Nat.lt_of_lt_of_le (Nat.lt_succ_self _) h)
      rw [cleanSwift, cleanSwiftA_cons, if_neg (by simp)]
      by_cases ho : isSwiftBlockOpen l
      · rw [if_pos ho, if_pos ho, cleanSwiftA_skip rest]
        exact ih _ (le_trans (dropToEndif_length_le rest) hrest)
      · have ho' : isSwiftBlockOpen l = false := by simpa using ho
        by_cases hm : swiftLineMatch l
        · simp [ho', hm, ih rest hrest]
        · have hm' : swiftLineMatch l = false := by simpa using hm
          simp [ho', hm', ih rest hrest]

/-- The state-machine evaluator agrees with the source-shaped Swift scan. -/
theorem cleanSwift_eval (ls : List String) : cleanSwift ls = cleanSwiftA false ls :=
  (cleanSwiftA_false_eq_aux ls.length ls le_rfl).symm

/-- C1: the spec's worked example for the Dart filter. -/
theorem C1_dart_example :
    cleanDart ["print(\"x\");\n", "if (kDebugMode) \x7b\n", "  doSomething();\n",
        "\x7d\n", "return;\n"] = ["return;\n"] ∧
      (["print(\"x\");\n", "if (kDebugMode) \x7b\n", "  doSomething();\n",
          "\x7d\n", "return;\n"] : List String).length -
        (cleanDart ["print(\"x\");\n", "if (kDebugMode) \x7b\n",
            "  doSomething();\n", "\x7d\n", "return;\n"]).length = 4 := by
  rw [cleanDart_eval]
  constructor
  · rfl
  · rfl

/-- Sum of the per-line brace deltas: the total movement of the nesting
counter over a list of lines. -/
def sumDelta (ls : List String) : Int :=
  (ls.map braceDelta).sum

theorem sumDelta_nil : sumDelta [] = 0 := rfl

theorem sumDelta_cons (l : String) (ls : List String) :
    sumDelta (l :: ls) = braceDelta l + sumDelta ls := by
  simp [sumDelta]

/-- If the counter stays positive before each line of `body` and reaches
exactly 0 after all of `body`, the skip loop consumes exactly `body` and
returns `post`. -/
theorem dropBlock_exact (body : List String) :
    ∀ (post : List String) (bc : Int),
      (∀ k, k < body.length → 0 < bc + sumDelta (body.take k)) →
      bc + sumDelta body = 0 →
      dropBlock bc (body ++ post) = post := by
  induction body with
  | nil =>
    intro post bc _ hend
    rw [sumDelta_nil] at hend
    have : bc ≤ 0 := by omega
    simpa using dropBlock_nonpos bc this post
  | cons b rest ih =>
    intro post bc hbal hend
    have hb0 : 0 < bc := by
      have := hbal 0 (by simp)
      simpa [sumDelta_nil] using this
    rw [List.cons_append, dropBlock_cons_pos bc hb0]
    apply ih post (bc + braceDelta b)
    · intro k hk
      have := hbal (k + 1) (by simpa using Nat.succ_lt_succ hk)
      rw [List.take_succ_cons, sumDelta_cons] at this
      omega
    · rw [sumDelta_cons] at hend
      omega

/-- If the counter stays positive before each line, the skip loop consumes
the whole remainder of the file. -/
theorem dropBlock_all (ls : List String) :
    ∀ bc : Int,
      (∀ k, k < ls.length → 0 < bc + sumDelta (ls.take k)) →
      dropBlock bc ls = [] := by
  induction ls with
  | nil => intro bc _; exact dropBlock_nil bc
  | cons l rest ih =>
    intro bc hbal
    have hb0 : 0 < bc := by
      have := hbal 0 (by simp)
      simpa [sumDelta_nil] using this
    rw [dropBlock_cons_pos bc hb0]
    apply ih
    intro k hk
    have := hbal (k + 1) (by simpa using Nat.succ_lt_succ hk)
    rw [List.take_succ_cons, sumDelta_cons] at this
    omega

/-- The Swift skip loop stops right after the first terminator line. -/
theorem dropToEndif_exact (mid : List String) (term : String)
    (post : List String) (hmid : ∀ l ∈ mid, isEndif l = false)
    (hterm : isEndif term = true) :
    dropToEndif (mid ++ term :: post) = post := by
  induction mid with
  | nil => simp [dropToEndif, hterm]
  | cons m rest ih =>
    have hm : isEndif m = false := hmid m (by simp)
    rw [List.cons_append, dropToEndif, if_neg (by simp [hm])]
    exact ih fun l hl => hmid l (by simp [hl])

/-- With no terminator in sight, the Swift skip loop consumes the whole
remainder of the file. -/
theorem dropToEndif_all (ls : List String)
    (h : ∀ l ∈ ls, isEndif l = false) : dropToEndif ls = [] := by
  induction ls with
  | nil => rfl
  | cons l rest ih =>
    rw [dropToEndif, if_neg (by simp [h l (by simp)])]
    exact ih fun a ha => h a (by simp [ha])

theorem cleanDart_nil : cleanDart [] = [] := by
  rw [cleanDart]

theorem cleanSwift_nil : cleanSwift [] = [] := by
  rw [cleanSwift]

/-- A region with no Dart block opener is processed line by line: matching
lines are dropped, the rest kept, and scanning continues on the suffix. -/
theorem cleanDart_append_no_open (pre : List String) (xs : List String)
    (h : ∀ l ∈ pre, isDartBlockOpen l = false) :
    cleanDart (pre ++ xs) =
      pre.filter (fun l => !dartLineMatch l) ++ cleanDart xs := by
  induction pre with
  | nil => simp
  | cons p rest ih =>
    have hp : isDartBlockOpen p = false := h p (by simp)
    rw [List.cons_append, cleanDart, if_neg (by simp [hp])]
    by_cases hm : dartLineMatch p
    · rw [if_pos hm, List.filter_cons_of_neg (by simp [hm])]
      exact ih fun l hl => h l (by simp [hl])
    · have hm' : dartLineMatch p = false := by simpa using hm
      rw [if_neg (by simp [hm']), List.filter_cons_of_pos (by simp [hm']),
        List.cons_append, ih fun l hl => h l (by simp [hl])]

/-- A region with no Swift block opener is processed line by line. -/
theorem cleanSwift_append_no_open (pre : List String) (xs : List String)
    (h : ∀ l ∈ pre, isSwiftBlockOpen l = false) :
    cleanSwift (pre ++ xs) =
      pre.filter (fun l => !swiftLineMatch l) ++ cleanSwift xs := by
  induction pre with
  | nil => simp
  | cons p rest ih =>
    have hp : isSwiftBlockOpen p = false := h p (by simp)
    rw [List.cons_append, cleanSwift, if_neg (by simp [hp])]
    by_cases hm : swiftLineMatch p
    · rw [if_pos hm, List.filter_cons_of_neg (by simp [hm])]
      exact ih fun l hl => h l (by simp [hl])
    · have hm' : swiftLineMatch p = false := by simpa using hm
      rw [if_neg (by simp [hm']), List.filter_cons_of_pos (by simp [hm']),
        List.cons_append, ih fun l hl => h l (by simp [hl])]

/-- C2: a `kDebugMode` opener followed by a brace-balanced body (the
counter, started at 1 on the opener, stays positive strictly inside the
body and returns to exactly 0 after its last line) that contains a nested
brace-delimited block is removed as one unit: the opener, every interior
line, the inner block, and the outer closing line are all discarded, and
scanning resumes on the lines after the block. -/
theorem C2_dart_nested_block (op : String) (body post : List String)
    (hop : isDartBlockOpen op = true)
    (hbal : ∀ k, k < body.length → 0 < 1 + sumDelta (body.take k))
    (hend : 1 + sumDelta body = 0)
    (hnest : ∃ l ∈ body, 0 < braceOpens l) :
    cleanDart (op :: (body ++ post)) = cleanDart post := by
  rw [cleanDart, if_pos hop, dropBlock_exact body post 1 hbal hend]

/-- Witness for C2: a concrete block with an inner brace-delimited block. -/
theorem C2_dart_nested_block_witness :
    isDartBlockOpen "if (kDebugMode) \x7b\n" = true ∧
      (∀ k, k < (["  if (verbose) \x7b\n", "    log();\n", "  \x7d\n", "\x7d\n"] :
          List String).length →
        0 < 1 + sumDelta ((["  if (verbose) \x7b\n", "    log();\n", "  \x7d\n",
            "\x7d\n"] : List String).take k)) ∧
      1 + sumDelta ["  if (verbose) \x7b\n", "    log();\n", "  \x7d\n", "\x7d\n"] = 0 ∧
      (∃ l ∈ (["  if (verbose) \x7b\n", "    log();\n", "  \x7d\n", "\x7d\n"] :
          List String), 0 < braceOpens l) ∧
      cleanDart ("if (kDebugMode) \x7b\n" :: (["  if (verbose) \x7b\n",
          "    log();\n", "  \x7d\n", "\x7d\n"] ++ ["final();\n"])) =
        cleanDart ["final();\n"] :=
  ⟨by decide, by decide, by decide, by decide,
    C2_dart_nested_block "if (kDebugMode) \x7b\n"
      ["  if (verbose) \x7b\n", "    log();\n", "  \x7d\n", "\x7d\n"] ["final();\n"]
      (by decide) (by decide) (by decide) (by decide)⟩

/-- C3: a `#if DEBUG` opener followed by terminator-free lines and then an
`#endif` line loses the opener, everything strictly between, and the
terminator itself; the lines after the terminator are scanned normally,
exactly as if the block had not been present. -/
theorem C3_swift_block (op term : String) (mid post : List String)
    (hop : isSwiftBlockOpen op = true)
    (hmid : ∀ l ∈ mid, isEndif l = false)
    (hterm : isEndif term = true) :
    cleanSwift (op :: (mid ++ term :: post)) = cleanSwift post := by
  rw [cleanSwift, if_pos hop, dropToEndif_exact mid term post hmid hterm]

/-- Witness for C3 at a concrete Swift block. -/
theorem C3_swift_block_witness :
    isSwiftBlockOpen "#if DEBUG\n" = true ∧
      (∀ l ∈ (["print(\"dbg\")\n", "setup()\n"] : List String),
        isEndif l = false) ∧
      isEndif "#endif\n" = true ∧
      cleanSwift ("#if DEBUG\n" :: (["print(\"dbg\")\n", "setup()\n"] ++
          "#endif\n" :: ["run()\n"])) = cleanSwift ["run()\n"] :=
  ⟨by decide, by decide, by decide,
    C3_swift_block "#if DEBUG\n" "#endif\n" ["print(\"dbg\")\n", "setup()\n"]
      ["run()\n"] (by decide) (by decide) (by decide)⟩

/-- C4: in either language, a block opener whose end condition is never
satisfied (the Dart brace counter never returns to 0 — it stays positive
before every remaining line — or no `#endif` line exists) consumes the
opener and the whole remainder of the file; the scan terminates and the
output is exactly the lines retained from the prefix before the opener. -/
theorem C4_unterminated_block
    (dpre drest : List String) (dop : String)
    (spre srest : List String) (sop : String) :
    ((∀ l ∈ dpre, isDartBlockOpen l = false) →
      isDartBlockOpen dop = true →
      (∀ k, k < drest.length → 0 < 1 + sumDelta (drest.take k)) →
      cleanDart (dpre ++ dop :: drest) =
        dpre.filter (fun l => !dartLineMatch l)) ∧
    ((∀ l ∈ spre, isSwiftBlockOpen l = false) →
      isSwiftBlockOpen sop = true →
      (∀ l ∈ srest, isEndif l = false) →
      cleanSwift (spre ++ sop :: srest) =
        spre.filter (fun l => !swiftLineMatch l)) := by
  constructor
  · intro hpre hop hbal
    rw [cleanDart_append_no_open dpre (dop :: drest) hpre, cleanDart,
      if_pos hop, dropBlock_all drest 1 hbal, cleanDart_nil,
      List.append_nil]
  · intro hpre hop hterm
    rw [cleanSwift_append_no_open spre (sop :: srest) hpre, cleanSwift,
      if_pos hop, dropToEndif_all srest hterm, cleanSwift_nil,
      List.append_nil]

/-- Witness for C4: a Dart file whose block never closes and a Swift file
with no terminator; in both, everything from the opener on is discarded. -/
theorem C4_unterminated_block_witness :
    ((∀ l ∈ (["int x = 0;\n", "print(\"hi\");\n"] : List String),
        isDartBlockOpen l = false) ∧
      isDartBlockOpen "if (kDebugMode) \x7b\n" = true ∧
      (∀ k, k < (["  a();\n", "  b();\n"] : List String).length →
        0 < 1 + sumDelta ((["  a();\n", "  b();\n"] : List String).take k)) ∧
      cleanDart (["int x = 0;\n", "print(\"hi\");\n"] ++
          "if (kDebugMode) \x7b\n" :: ["  a();\n", "  b();\n"]) =
        (["int x = 0;\n", "print(\"hi\");\n"] : List String).filter
          (fun l => !dartLineMatch l)) ∧
    ((∀ l ∈ (["let y = 1\n"] : List String), isSwiftBlockOpen l = false) ∧
      isSwiftBlockOpen "#if DEBUG\n" = true ∧
      (∀ l ∈ (["print(\"z\")\n", "work()\n"] : List String),
        isEndif l = false) ∧
      cleanSwift (["let y = 1\n"] ++ "#if DEBUG\n" ::
          ["print(\"z\")\n", "work()\n"]) =
        (["let y = 1\n"] : List String).filter
          (fun l => !swiftLineMatch l)) :=
  ⟨⟨by decide, by decide, by decide,
    (C4_unterminated_block ["int x = 0;\n", "print(\"hi\");\n"]
        ["  a();\n", "  b();\n"] "if (kDebugMode) \x7b\n" ["let y = 1\n"]
        ["print(\"z\")\n", "work()\n"] "#if DEBUG\n").1
      (by decide) (by decide) (by decide)⟩,
   ⟨by decide, by decide, by decide,
    (C4_unterminated_block ["int x = 0;\n", "print(\"hi\");\n"]
        ["  a();\n", "  b();\n"] "if (kDebugMode) \x7b\n" ["let y = 1\n"]
        ["print(\"z\")\n", "work()\n"] "#if DEBUG\n").2
      (by decide) (by decide) (by decide)⟩⟩

/-- A list in which no line opens a block and no line matches a pattern is
a fixed point of the Dart filter. -/
theorem cleanDart_fixed (ls : List String)
    (h : ∀ l ∈ ls, isDartBlockOpen l = false ∧ dartLineMatch l = false) :
    cleanDart ls = ls := by
  have hs := cleanDart_append_no_open ls [] (fun l hl => (h l hl).1)
  rw [List.append_nil, cleanDart_nil, List.append_nil] at hs
  rw [hs]
  exact List.filter_eq_self.mpr fun l hl => by simp [(h l hl).2]

/-- A list in which no line opens a block and no line matches a pattern is
a fixed point of the Swift filter. -/
theorem cleanSwift_fixed (ls : List String)
    (h : ∀ l ∈ ls, isSwiftBlockOpen l = false ∧ swiftLineMatch l = false) :
    cleanSwift ls = ls := by
  have hs := cleanSwift_append_no_open ls [] (fun l hl => (h l hl).1)
  rw [List.append_nil, cleanSwift_nil, List.append_nil] at hs
  rw [hs]
  exact List.filter_eq_self.mpr fun l hl => by simp [(h l hl).2]

theorem mem_cleanDart_aux (n : Nat) :
    ∀ ls : List String, ls.length ≤ n → ∀ l ∈ cleanDart ls,
      isDartBlockOpen l = false ∧ dartLineMatch l = false := by
  induction n with
  | zero =>
    intro ls h l hl
    have : ls = [] := List.eq_nil_of_length_eq_zero (Nat.le_zero.mp h)
    subst this
    rw [cleanDart_nil] at hl
    simp at hl
  | succ n ih =>
    intro ls h l hl
    cases ls with
    | nil =>
      rw [cleanDart_nil] at hl
      simp at hl
    | cons a rest =>
      have hrest : rest.length ≤ n := by simp at h; omega
      rw [cleanDart] at hl
      by_cases ho : isDartBlockOpen a
      · rw [if_pos ho] at hl
        exact ih _ (le_trans (dropBlock_length_le 1 rest) hrest) l hl
      · rw [if_neg (by simp [ho])] at hl
        by_cases hm : dartLineMatch a
        · rw [if_pos hm] at hl
          exact ih rest hrest l hl
        · rw [if_neg (by simp [hm])] at hl
          rcases List.mem_cons.mp hl with rfl | hl'
          · exact ⟨by simpa using ho, by simpa using hm⟩
          · exact ih rest hrest l hl'

theorem mem_cleanSwift_aux (n : Nat) :
    ∀ ls : List String, ls.length ≤ n → ∀ l ∈ cleanSwift ls,
      isSwiftBlockOpen l = false ∧ swiftLineMatch l = false := by
  induction n with
  | zero =>
    intro ls h l hl
    have : ls = [] := List.eq_nil_of_length_eq_zero (Nat.le_zero.mp h)
    subst this
    rw [cleanSwift_nil] at hl
    simp at hl
  | succ n ih =>
    intro ls h l hl
    cases ls with
    | nil =>
      rw [cleanSwift_nil] at hl
      simp at hl
    | cons a rest =>
      have hrest : rest.length ≤ n := by simp at h; omega
      rw [cleanSwift] at hl
      by_cases ho : isSwiftBlockOpen a
      · rw [if_pos ho] at hl
        exact ih _ (le_trans (dropToEndif_length_le rest) hrest) l hl
      · rw [if_neg (by simp [ho])] at hl
        by_cases hm : swiftLineMatch a
        · rw [if_pos hm] at hl
          exact ih rest hrest l hl
        · rw [if_neg (by simp [hm])] at hl
          rcases List.mem_cons.mp hl with rfl | hl'
          · exact ⟨by simpa using ho, by simpa using hm⟩
          · exact ih rest hrest l hl'

/-- Every line surviving the Dart filter neither opens a block nor matches
a pattern. -/
theorem mem_cleanDart (ls : List String) :
    ∀ l ∈ cleanDart ls, isDartBlockOpen l = false ∧ dartLineMatch l = false :=
  mem_cleanDart_aux ls.length ls le_rfl

/-- Every line surviving the Swift filter neither opens a block nor matches
a pattern. -/
theorem mem_cleanSwift (ls : List String) :
    ∀ l ∈ cleanSwift ls,
      isSwiftBlockOpen l = false ∧ swiftLineMatch l = false :=
  mem_cleanSwift_aux ls.length ls le_rfl

/-- C5: both filters are idempotent — their output is a fixed point, so a
second run removes 0 further lines (the second run's removed count,
`length - length` of an unchanged list, is 0). -/
theorem C5_idempotent (ls : List String) :
    cleanDart (cleanDart ls) = cleanDart ls ∧
      cleanSwift (cleanSwift ls) = cleanSwift ls :=
  ⟨cleanDart_fixed (cleanDart ls) (mem_cleanDart ls),
   cleanSwift_fixed (cleanSwift ls) (mem_cleanSwift ls)⟩

theorem dropBlock_sublist (ls : List String) :
    ∀ bc : Int, List.Sublist (dropBlock bc ls) ls := by
  induction ls with
  | nil => intro bc; rw [dropBlock_nil]
  | cons l rest ih =>
    intro bc
    by_cases h : bc ≤ 0
    · rw [dropBlock_nonpos bc h]
    · rw [dropBlock_cons_pos bc (Int.not_le.mp h)]
      exact List.Sublist.cons l (ih _)

theorem dropToEndif_sublist (ls : List String) :
    List.Sublist (dropToEndif ls) ls := by
  induction ls with
  | nil => rw [show dropToEndif [] = [] from rfl]
  | cons l rest ih =>
    rw [dropToEndif]
    by_cases h : isEndif l
    · simp [h]
    · rw [if_neg (by simp [h])]
      exact List.Sublist.cons l ih

theorem cleanDart_sublist_aux (n : Nat) :
    ∀ ls : List String, ls.length ≤ n → List.Sublist (cleanDart ls) ls := by
  induction n with
  | zero =>
    intro ls h
    have : ls = [] := List.eq_nil_of_length_eq_zero (Nat.le_zero.mp h)
    subst this
    rw [cleanDart_nil]
  | succ n ih =>
    intro ls h
    cases ls with
    | nil => rw [cleanDart_nil]
    | cons a rest =>
      have hrest : rest.length ≤ n := by simp at h; omega
      rw [cleanDart]
      by_cases ho : isDartBlockOpen a
      · rw [if_pos ho]
        exact List.Sublist.cons a
          ((ih _ (le_trans (dropBlock_length_le 1 rest) hrest)).trans
            (dropBlock_sublist rest 1))
      · rw [if_neg (by simp [ho])]
        by_cases hm : dartLineMatch a
        · rw [if_pos hm]
          exact List.Sublist.cons a (ih rest hrest)
        · rw [if_neg (by simp [hm])]
          exact List.Sublist.cons₂ a (ih rest hrest)

theorem cleanSwift_sublist_aux (n : Nat) :
    ∀ ls : List String, ls.length ≤ n → List.Sublist (cleanSwift ls) ls := by
  induction n with
  | zero =>
    intro ls h
    have : ls = [] := List.eq_nil_of_length_eq_zero (Nat.le_zero.mp h)
    subst this
    rw [cleanSwift_nil]
  | succ n ih =>
    intro ls h
    cases ls with
    | nil => rw [cleanSwift_nil]
    | cons a rest =>
      have hrest : rest.length ≤ n := by simp at h; omega
      rw [cleanSwift]
      by_cases ho : isSwiftBlockOpen a
      · rw [if_pos ho]
        exact List.Sublist.cons a
          ((ih _ (le_trans (dropToEndif_length_le rest) hrest)).trans
            (dropToEndif_sublist rest))
      · rw [if_neg (by simp [ho])]
        by_cases hm : swiftLineMatch a
        · rw [if_pos hm]
          exact List.Sublist.cons a (ih rest hrest)
        · rw [if_neg (by simp [hm])]
          exact List.Sublist.cons₂ a (ih rest hrest)

/-- C6: for both languages the output is a sublist of the input — every
surviving line occurs in the input, surviving lines keep their relative
order, and the output length never exceeds the input length. -/
theorem C6_sublist (ls : List String) :
    (List.Sublist (cleanDart ls) ls ∧ (cleanDart ls).length ≤ ls.length) ∧
      (List.Sublist (cleanSwift ls) ls ∧
        (cleanSwift ls).length ≤ ls.length) :=
  ⟨⟨cleanDart_sublist_aux ls.length ls le_rfl,
    (cleanDart_sublist_aux ls.length ls le_rfl).length_le⟩,
   ⟨cleanSwift_sublist_aux ls.length ls le_rfl,
    (cleanSwift_sublist_aux ls.length ls le_rfl).length_le⟩⟩

/-- Outcome of one `clean_dart_file` / `clean_swift_file` call:
the value the function returns (`ret`), the increments applied to
`*_files_processed` and `total_lines_removed`, and whether the file was
(successfully) written back.  A single `Bool` write slot models the fact
that each call opens the file for writing at most once. -/
structure FileResult where
  ret : Nat
  processedInc : Nat
  totalInc : Nat
  wrote : Bool
deriving DecidableEq

/-- `clean_dart_file` with its I/O made explicit: `rd` is the result of
the fallible read (`Except.error` when `readlines` raises), and `writeOk`
tells whether the conditional write raises.  Any exception lands in the
`except` handler, which returns 0 having skipped the increments. -/
def dartFileOp (rd : Except String (List String)) (writeOk : Bool) :
    FileResult :=
  match rd with
  | Except.error _ => ⟨0, 0, 0, false⟩
  | Except.ok lines =>
    let cleaned := cleanDart lines
    let removed := lines.length - cleaned.length
    if 0 < removed then
      if writeOk then ⟨removed, 1, removed, true⟩
      else ⟨0, 0, 0, false⟩
    else ⟨removed, 1, 0, false⟩

/-- `clean_swift_file` with its I/O made explicit. -/
def swiftFileOp (rd : Except String (List String)) (writeOk : Bool) :
    FileResult :=
  match rd with
  | Except.error _ => ⟨0, 0, 0, false⟩
  | Except.ok lines =>
    let cleaned := cleanSwift lines
    let removed := lines.length - cleaned.length
    if 0 < removed then
      if writeOk then ⟨removed, 1, removed, true⟩
      else ⟨0, 0, 0, false⟩
    else ⟨removed, 1, 0, false⟩

/-- Total `total_lines_removed` contribution of one Dart pass of the
orchestrator over a list of files (each given by its read result and
write outcome). -/
def dartPassTotal (fs : List (Except String (List String) × Bool)) : Nat :=
  (fs.map fun f => (dartFileOp f.1 f.2).totalInc).sum

/-- Total `swift` pass contribution to `total_lines_removed`. -/
def swiftPassTotal (fs : List (Except String (List String) × Bool)) : Nat :=
  (fs.map fun f => (swiftFileOp f.1 f.2).totalInc).sum

/-- C7: a file none of whose lines matches a pattern or opens a block is
left untouched — the filter output equals the input, the removed-line
count is 0, the per-file call reports 0 and does not write (`wrote`
stays `false`); and in general a write happens only when the removed
count is strictly positive (the single `wrote` slot is the at-most-one
write per file per run). -/
theorem C7_no_match_untouched (dls : List String) (dw : Bool)
    (sls : List String) (sw : Bool)
    (hd : ∀ l ∈ dls, isDartBlockOpen l = false ∧ dartLineMatch l = false)
    (hs : ∀ l ∈ sls, isSwiftBlockOpen l = false ∧ swiftLineMatch l = false) :
    (cleanDart dls = dls ∧ dartFileOp (Except.ok dls) dw = ⟨0, 1, 0, false⟩) ∧
      (cleanSwift sls = sls ∧
        swiftFileOp (Except.ok sls) sw = ⟨0, 1, 0, false⟩) ∧
      (∀ (rd : Except String (List String)) (w : Bool),
        (dartFileOp rd w).wrote = true → 0 < (dartFileOp rd w).totalInc) ∧
      (∀ (rd : Except String (List String)) (w : Bool),
        (swiftFileOp rd w).wrote = true → 0 < (swiftFileOp rd w).totalInc) := by
  refine ⟨⟨cleanDart_fixed dls hd, ?_⟩, ⟨cleanSwift_fixed sls hs, ?_⟩, ?_, ?_⟩
  · simp [dartFileOp, cleanDart_fixed dls hd]
  · simp [swiftFileOp, cleanSwift_fixed sls hs]
  · intro rd w
    cases rd with
    | error e => simp [dartFileOp]
    | ok lines =>
      simp only [dartFileOp]
      split
      · split
        · intro _; assumption
        · simp
      · simp
  · intro rd w
    cases rd with
    | error e => simp [swiftFileOp]
    | ok lines =>
      simp only [swiftFileOp]
      split
      · split
        · intro _; assumption
        · simp
      · simp

/-- Witness for C7: one clean Dart file and one clean Swift file. -/
theorem C7_no_match_untouched_witness :
    (∀ l ∈ (["int x = 0;\n", "return x;\n"] : List String),
        isDartBlockOpen l = false ∧ dartLineMatch l = false) ∧
      (∀ l ∈ (["let y = 1\n", "return y\n"] : List String),
        isSwiftBlockOpen l = false ∧ swiftLineMatch l = false) ∧
      ((cleanDart ["int x = 0;\n", "return x;\n"] =
          ["int x = 0;\n", "return x;\n"] ∧
        dartFileOp (Except.ok ["int x = 0;\n", "return x;\n"]) true =
          ⟨0, 1, 0, false⟩) ∧
      (cleanSwift ["let y = 1\n", "return y\n"] =
          ["let y = 1\n", "return y\n"] ∧
        swiftFileOp (Except.ok ["let y = 1\n", "return y\n"]) true =
          ⟨0, 1, 0, false⟩) ∧
      (∀ (rd : Except String (List String)) (w : Bool),
        (dartFileOp rd w).wrote = true → 0 < (dartFileOp rd w).totalInc) ∧
      (∀ (rd : Except String (List String)) (w : Bool),
        (swiftFileOp rd w).wrote = true → 0 < (swiftFileOp rd w).totalInc)) :=
  ⟨by decide, by decide,
    C7_no_match_untouched ["int x = 0;\n", "return x;\n"] true
      ["let y = 1\n", "return y\n"] true (by decide) (by decide)⟩

/-- A Dart file whose write is attempted (some line was removed) and
raises lands in the handler: nothing is incremented and 0 is returned. -/
theorem dartFileOp_writeFail (ls : List String)
    (h : 0 < ls.length - (cleanDart ls).length) :
    dartFileOp (Except.ok ls) false = ⟨0, 0, 0, false⟩ := by
  simp only [dartFileOp]
  rw [if_pos h, if_neg Bool.false_ne_true]

/-- A Swift file whose write is attempted and raises lands in the
handler: nothing is incremented and 0 is returned. -/
theorem swiftFileOp_writeFail (ls : List String)
    (h : 0 < ls.length - (cleanSwift ls).length) :
    swiftFileOp (Except.ok ls) false = ⟨0, 0, 0, false⟩ := by
  simp only [swiftFileOp]
  rw [if_pos h, if_neg Bool.false_ne_true]

/-- A Dart file whose write fails (or that needs no write) contributes
nothing to `total_lines_removed`, whatever its content. -/
theorem dartFileOp_writeFail_totalInc (ls : List String) :
    (dartFileOp (Except.ok ls) false).totalInc = 0 := by
  simp only [dartFileOp]
  split
  · rw [if_neg Bool.false_ne_true]
  · rfl

/-- A Swift file whose write fails (or that needs no write) contributes
nothing to `total_lines_removed`. -/
theorem swiftFileOp_writeFail_totalInc (ls : List String) :
    (swiftFileOp (Except.ok ls) false).totalInc = 0 := by
  simp only [swiftFileOp]
  split
  · rw [if_neg Bool.false_ne_true]
  · rfl

/-- C8: a failure while reading or while writing is absorbed by the
handler: the call reports 0 removed lines with no increments, and the
pass over the remaining files continues — the pass total over any file
list containing the failed file (a read failure, or a write failure on a
file that had lines to remove) is the pass total of the files before it
plus the pass total of the files after it, so the sweep always yields a
summary total. -/
theorem C8_error_caught (e : String) (w : Bool) (dls sls : List String)
    (pre post : List (Except String (List String) × Bool)) :
    (dartFileOp (Except.error e) w = ⟨0, 0, 0, false⟩ ∧
      swiftFileOp (Except.error e) w = ⟨0, 0, 0, false⟩) ∧
    ((0 < dls.length - (cleanDart dls).length →
        dartFileOp (Except.ok dls) false = ⟨0, 0, 0, false⟩) ∧
      (0 < sls.length - (cleanSwift sls).length →
        swiftFileOp (Except.ok sls) false = ⟨0, 0, 0, false⟩)) ∧
    (dartPassTotal (pre ++ (Except.error e, w) :: post) =
        dartPassTotal pre + dartPassTotal post ∧
      swiftPassTotal (pre ++ (Except.error e, w) :: post) =
        swiftPassTotal pre + swiftPassTotal post) ∧
    (dartPassTotal (pre ++ (Except.ok dls, false) :: post) =
        dartPassTotal pre + dartPassTotal post ∧
      swiftPassTotal (pre ++ (Except.ok sls, false) :: post) =
        swiftPassTotal pre + swiftPassTotal post) := by
  refine ⟨⟨rfl, rfl⟩, ⟨dartFileOp_writeFail dls, swiftFileOp_writeFail sls⟩,
    ⟨?_, ?_⟩, ⟨?_, ?_⟩⟩
  · simp [dartPassTotal, dartFileOp]
  · simp [swiftPassTotal, swiftFileOp]
  · simp [dartPassTotal, dartFileOp_writeFail_totalInc]
  · simp [swiftPassTotal, swiftFileOp_writeFail_totalInc]

/-- Witness for C8: a permission error and, for the write-failure side,
one Dart file and one Swift file that each have a removable line. -/
theorem C8_error_caught_witness :
    (0 < (["print(\"a\");\n"] : List String).length -
        (cleanDart ["print(\"a\");\n"]).length) ∧
      (0 < (["print(\"b\")\n"] : List String).length -
        (cleanSwift ["print(\"b\")\n"]).length) ∧
      dartFileOp (Except.ok ["print(\"a\");\n"]) false = ⟨0, 0, 0, false⟩ ∧
      swiftFileOp (Except.ok ["print(\"b\")\n"]) false = ⟨0, 0, 0, false⟩ ∧
      dartFileOp (Except.error "denied") true = ⟨0, 0, 0, false⟩ ∧
      dartPassTotal [(Except.ok ["print(\"a\");\n"], false)] = 0 + 0 :=
  ⟨by rw [cleanDart_eval]; decide,
   by rw [cleanSwift_eval]; decide,
   (C8_error_caught "denied" true ["print(\"a\");\n"] ["print(\"b\")\n"]
      [] []).2.1.1 (by rw [cleanDart_eval]; decide),
   (C8_error_caught "denied" true ["print(\"a\");\n"] ["print(\"b\")\n"]
      [] []).2.1.2 (by rw [cleanSwift_eval]; decide),
   (C8_error_caught "denied" true ["print(\"a\");\n"] ["print(\"b\")\n"]
      [] []).1.1,
   (C8_error_caught "denied" true ["print(\"a\");\n"] ["print(\"b\")\n"]
      [] []).2.2.2.1⟩

/-- C10: the files-processed counter is not incremented when the per-file
operation fails with an exception — a read failure, or a write failure on
a file that had lines to remove — and in both failure cases the operation
still returns 0; the counter is incremented exactly when the read
succeeds and any needed write succeeds — the successful path, after
filtering and the conditional write. -/
theorem C10_processed_on_success (e : String)
    (rd : Except String (List String)) (w : Bool) (dls sls : List String) :
    ((dartFileOp (Except.error e) w).processedInc = 0 ∧
        (dartFileOp (Except.error e) w).ret = 0 ∧
        (swiftFileOp (Except.error e) w).processedInc = 0 ∧
        (swiftFileOp (Except.error e) w).ret = 0) ∧
      ((0 < dls.length - (cleanDart dls).length →
          (dartFileOp (Except.ok dls) false).processedInc = 0 ∧
            (dartFileOp (Except.ok dls) false).ret = 0) ∧
        (0 < sls.length - (cleanSwift sls).length →
          (swiftFileOp (Except.ok sls) false).processedInc = 0 ∧
            (swiftFileOp (Except.ok sls) false).ret = 0)) ∧
      ((dartFileOp rd w).processedInc = 1 ↔
        ∃ ls, rd = Except.ok ls ∧
          (0 < ls.length - (cleanDart ls).length → w = true)) ∧
      ((swiftFileOp rd w).processedInc = 1 ↔
        ∃ ls, rd = Except.ok ls ∧
          (0 < ls.length - (cleanSwift ls).length → w = true)) := by
  refine ⟨⟨rfl, rfl, rfl, rfl⟩,
    ⟨fun h => by rw [dartFileOp_writeFail dls h]; exact ⟨rfl, rfl⟩,
     fun h => by rw [swiftFileOp_writeFail sls h]; exact ⟨rfl, rfl⟩⟩, ?_, ?_⟩
  · cases rd with
    | error e' => simp [dartFileOp]
    | ok lines =>
      simp only [dartFileOp, Except.ok.injEq]
      by_cases hrem : 0 < lines.length - (cleanDart lines).length
      · rw [if_pos hrem]
        cases w with
        | true => simp [hrem]
        | false =>
          rw [if_neg Bool.false_ne_true]
          constructor
          · intro h; simp at h
          · rintro ⟨ls, rfl, himp⟩
            exact absurd (himp hrem) (by simp)
      · rw [if_neg hrem]
        constructor
        · intro _; exact ⟨lines, rfl, fun h => absurd h hrem⟩
        · intro _; rfl
  · cases rd with
    | error e' => simp [swiftFileOp]
    | ok lines =>
      simp only [swiftFileOp, Except.ok.injEq]
      by_cases hrem : 0 < lines.length - (cleanSwift lines).length
      · rw [if_pos hrem]
        cases w with
        | true => simp [hrem]
        | false =>
          rw [if_neg Bool.false_ne_true]
          constructor
          · intro h; simp at h
          · rintro ⟨ls, rfl, himp⟩
            exact absurd (himp hrem) (by simp)
      · rw [if_neg hrem]
        constructor
        · intro _; exact ⟨lines, rfl, fun h => absurd h hrem⟩
        · intro _; rfl

/-- Witness for C10 at a concrete error, a concrete readable file, and
concrete files whose pending write fails. -/
theorem C10_processed_on_success_witness :
    (0 < (["print(\"a\");\n"] : List String).length -
        (cleanDart ["print(\"a\");\n"]).length) ∧
      (0 < (["print(\"b\")\n"] : List String).length -
        (cleanSwift ["print(\"b\")\n"]).length) ∧
      ((dartFileOp (Except.error "denied") true).processedInc = 0 ∧
        (dartFileOp (Except.error "denied") true).ret = 0 ∧
        (swiftFileOp (Except.error "denied") true).processedInc = 0 ∧
        (swiftFileOp (Except.error "denied") true).ret = 0) ∧
      ((dartFileOp (Except.ok ["print(\"a\");\n"]) false).processedInc = 0 ∧
        (dartFileOp (Except.ok ["print(\"a\");\n"]) false).ret = 0) ∧
      ((swiftFileOp (Except.ok ["print(\"b\")\n"]) false).processedInc = 0 ∧
        (swiftFileOp (Except.ok ["print(\"b\")\n"]) false).ret = 0) ∧
      ((dartFileOp (Except.ok ["print(\"a\");\n"]) true).processedInc = 1 ↔
        ∃ ls, (Except.ok ["print(\"a\");\n"] :
            Except String (List String)) = Except.ok ls ∧
          (0 < ls.length - (cleanDart ls).length → true = true)) ∧
      ((swiftFileOp (Except.ok ["print(\"a\");\n"]) true).processedInc = 1 ↔
        ∃ ls, (Except.ok ["print(\"a\");\n"] :
            Except String (List String)) = Except.ok ls ∧
          (0 < ls.length - (cleanSwift ls).length → true = true)) :=
  ⟨by rw [cleanDart_eval]; decide,
   by rw [cleanSwift_eval]; decide,
   (C10_processed_on_success "denied" (Except.ok ["print(\"a\");\n"]) true
      ["print(\"a\");\n"] ["print(\"b\")\n"]).1,
   (C10_processed_on_success "denied" (Except.ok ["print(\"a\");\n"]) true
      ["print(\"a\");\n"] ["print(\"b\")\n"]).2.1.1
     (by rw [cleanDart_eval]; decide),
   (C10_processed_on_success "denied" (Except.ok ["print(\"a\");\n"]) true
      ["print(\"a\");\n"] ["print(\"b\")\n"]).2.1.2
     (by rw [cleanSwift_eval]; decide),
   (C10_processed_on_success "denied" (Except.ok ["print(\"a\");\n"]) true
      ["print(\"a\");\n"] ["print(\"b\")\n"]).2.2.1,
   (C10_processed_on_success "denied" (Except.ok ["print(\"a\");\n"]) true
      ["print(\"a\");\n"] ["print(\"b\")\n"]).2.2.2⟩

/-- `part.startswith('.')`: a hidden path segment — the segment is
nonempty and its first character is a dot. -/
def partHidden (s : String) : Bool :=
  match s.data with
  | [] => false
  | c :: _ => c = '.'

/-- `find_files`, over path segments.  `rglob` is abstracted as the list of
candidates it yields: each is the segments of the match relative to the
root paired with its `is_file()` answer, and its full path (`Path.parts`)
is the root's segments followed by its own.  A candidate is kept when no
segment of the full path is hidden and it is a regular file. -/
def find_files (root : List String)
    (cands : List (List String × Bool)) : List (List String) :=
  ((cands.map (fun c => (root ++ c.1, c.2))).filter
    (fun c => !(c.1.any partHidden) && c.2)).map (fun c => c.1)

/-- C9: a scan root with a hidden segment in its own path makes
`find_files` return the empty list for every candidate set (hence for
every glob pattern): the hidden-segment test sees the root's segments in
every candidate's full path. -/
theorem C9_hidden_root (root : List String)
    (cands : List (List String × Bool))
    (h : ∃ seg ∈ root, partHidden seg = true) :
    find_files root cands = [] := by
  rcases h with ⟨seg, hmem, hseg⟩
  unfold find_files
  rw [List.filter_eq_nil_iff.mpr, List.map_nil]
  intro c hc
  rcases List.mem_map.mp hc with ⟨c0, _, rfl⟩
  have hany : (root ++ c0.1).any partHidden = true :=
    List.any_eq_true.mpr ⟨seg, List.mem_append_left _ hmem, hseg⟩
  simp [hany]

/-- Witness for C9: a project living inside a hidden directory. -/
theorem C9_hidden_root_witness :
    (∃ seg ∈ ([".config", "myproj"] : List String), partHidden seg = true) ∧
      find_files [".config", "myproj"]
        [(["lib", "main.dart"], true), (["app.dart"], true)] = [] :=
  ⟨by decide,
    C9_hidden_root [".config", "myproj"]
      [(["lib", "main.dart"], true), (["app.dart"], true)] (by decide)⟩
